import Mathlib

/-!
Shallow embedding of the vote-ingestion and broadcast pipeline of the
polling platform (Django app: `polls/models.py`, `polls/serializers.py`,
`polls/signals.py`, `polls/views.py`, `polls/utils.py`, `core/tasks.py`).

Records are modelled as lists of structures (one structure per Django
model); the database is explicit state threaded through the functions.
Django query-set calls are embedded as list operations:
`Model.objects.get(...)` becomes `List.find?`, `.exists()` becomes
`List.any`, `.update(vote_count=F("vote_count")+1)` becomes a `List.map`
touching only the matching rows.  The Redis connection of
`core/tasks.py` is a separate explicit state (the `dirty_polls` and
`dirty_polls_processing` set keys); a Redis set key exists iff it has at
least one member, so an absent key is the empty list.
-/

namespace Polls

/-- `polls/models.py` `Poll`: identifiers are opaque; we use `Nat` for the
UUID primary key and user / organization ids, `Int` timestamps for the
dates.  `allowed_country` is a `CharField` with `blank=True`: the empty
string means "no country restriction" (Python truthiness of the field). -/
structure Poll where
  poll_id : Nat
  organization : Option Nat
  end_date : Int
  is_active : Bool
  manually_closed : Bool
  is_public : Bool
  allowed_country : String
  deriving DecidableEq, Repr

/-- `polls/models.py` `PollOption`: `id` is the auto primary key (the raw
storage key), `index` the per-poll ordinal (1, 2, 3, ...) assigned by
`PollCreateSerializer.create` and used as the public-facing identifier,
`vote_count` the denormalised counter updated only by the post-save
signal. -/
structure PollOption where
  id : Nat
  poll_id : Nat
  index : Nat
  vote_count : Nat
  deriving DecidableEq, Repr

/-- `polls/models.py` `Vote`: voter identity is an optional user id plus an
optional IP address.  The Meta class declares only (non-unique) `Index`
entries on `(poll, user)` and `(poll, ip_address)` — no `UniqueConstraint`
and no `unique_together` — so the store itself never rejects an insert. -/
structure Vote where
  id : Nat
  poll_id : Nat
  option_id : Nat
  user : Option Nat
  ip_address : Option String
  deriving DecidableEq, Repr

/-- The relational state: the three tables plus the auto-increment vote
primary key. -/
structure DB where
  polls : List Poll
  options : List PollOption
  votes : List Vote
  nextVoteId : Nat
  deriving DecidableEq, Repr

/-- The Redis state used by `core/tasks.py`: members of the two set keys.
A Redis set key exists iff it is non-empty (`SADD` creates it, draining it
removes it), so `[]` models an absent key. -/
structure RedisState where
  dirty_polls : List Nat
  dirty_polls_processing : List Nat
  deriving DecidableEq, Repr

/-- Combined system state seen by a request: database plus Redis. -/
structure SysState where
  db : DB
  redis : RedisState
  deriving DecidableEq, Repr

/-- A channel-layer group message: `group_send(room_group_name, {"type":
..., "results": ...})`.  Each result row is the pair of the JSON `id`
field and the JSON `vote_count` field. -/
structure Message where
  mtype : String
  results : List (Nat × Nat)
  deriving DecidableEq, Repr

/-- A `group_send` call: target poll group and payload. -/
abbrev GroupMessage := Nat × Message

/-- External collaborators of the validator: the current time (for
`timezone.now()`), the organization-membership check
(`OrganizationMember.objects.filter(organization=..., user=...).exists()`)
and the GeoIP resolver behind `geoip2.database.Reader.country`. -/
structure ValidCtx where
  now : Int
  isMember : Nat → Nat → Bool
  resolve : String → Option String

/-- `polls/models.py` `Poll.is_expired`: `timezone.now() > self.end_date`. -/
def Poll.is_expired (p : Poll) (now : Int) : Bool :=
  decide (now > p.end_date)

/-- `polls/utils.py` `get_country_from_ip`: localhost / private addresses
resolve to `None` immediately; otherwise the GeoIP lookup result is
returned, with every failure path (missing database, address not found,
any other exception) returning `None`.  The resolver argument already
folds those failure paths into `none`. -/
def get_country_from_ip (resolve : String → Option String) (ip_address : String) : Option String :=
  if ip_address = "127.0.0.1" ∨ ip_address = "localhost" ∨ ip_address = "::1"
      ∨ ip_address.take 8 = "192.168." then
    none
  else
    resolve ip_address

/-- The distinct rejection reasons raised by `VoteSerializer.validate` and
`PollViewSet.vote`, one per `ValidationError` message in the source. -/
inductive VoteError where
  | pollNotFound
  | invalidOption
  | pollClosed
  | pollExpired
  | mustBeLoggedIn
  | notOrgMember
  | countryRestricted
  | alreadyVotedUser
  | alreadyVotedIp
  deriving DecidableEq, Repr

/-- `Poll.objects.get(pk=poll_id)` over the embedded table. -/
def findPoll (db : DB) (poll_id : Nat) : Option Poll :=
  db.polls.find? (fun p => p.poll_id == poll_id)

/-- `PollOption.objects.get(poll=poll, index=option_index)` over the
embedded table (lookup by poll + ordinal, not by primary key). -/
def findOption (db : DB) (poll_id : Nat) (option_index : Nat) : Option PollOption :=
  db.options.find? (fun o => o.poll_id == poll_id && o.index == option_index)

/-- `Vote.objects.filter(poll=poll, user=user).exists()`. -/
def hasUserVote (db : DB) (poll_id : Nat) (u : Nat) : Bool :=
  db.votes.any (fun v => v.poll_id == poll_id && v.user == some u)

/-- `Vote.objects.filter(poll=poll, ip_address=ip_address).exists()`. -/
def hasIpVote (db : DB) (poll_id : Nat) (ip : String) : Bool :=
  db.votes.any (fun v => v.poll_id == poll_id && v.ip_address == some ip)

/-- `VoteSerializer.validate`, the visibility block: if the poll is not
public the voter must be authenticated, and when the poll has an owning
organization the voter must be a member of it. -/
def checkVisibility (poll : Poll) (ctx : ValidCtx) (user : Option Nat) : Except VoteError Unit :=
  if poll.is_public then .ok ()
  else
    match user with
    | none => .error .mustBeLoggedIn
    | some u =>
      match poll.organization with
      | none => .ok ()
      | some org =>
        if ctx.isMember org u then .ok () else .error .notOrgMember

/-- `VoteSerializer.validate`, the country block: when `allowed_country`
is non-empty, the resolved country of the voter's IP must equal it; a
`None` resolution compares unequal to the (non-empty) country code and is
rejected. -/
def checkCountry (poll : Poll) (ctx : ValidCtx) (ip_address : String) : Except VoteError Unit :=
  if poll.allowed_country ≠ "" then
    if get_country_from_ip ctx.resolve ip_address ≠ some poll.allowed_country then
      .error .countryRestricted
    else .ok ()
  else .ok ()

/-- `VoteSerializer.validate`, the duplicate block: authenticated voters
are checked against `(poll, user)` only, anonymous voters against
`(poll, ip_address)` only. -/
def checkDuplicate (db : DB) (poll : Poll) (user : Option Nat) (ip_address : String) :
    Except VoteError Unit :=
  match user with
  | some u =>
    if hasUserVote db poll.poll_id u then .error .alreadyVotedUser else .ok ()
  | none =>
    if hasIpVote db poll.poll_id ip_address then .error .alreadyVotedIp else .ok ()

namespace VoteSerializer

/-- `polls/serializers.py` `VoteSerializer.validate`: poll lookup, option
lookup by (poll, index), then the ordered checks — closed, expired,
visibility/membership, country restriction, duplicate — each raising its
own `ValidationError`; on success the validated (poll, option) pair is
returned for the caller to persist. -/
def validate (db : DB) (ctx : ValidCtx) (user : Option Nat) (ip_address : String)
    (poll_id : Nat) (option_index : Nat) : Except VoteError (Poll × PollOption) :=
  match findPoll db poll_id with
  | none => .error .pollNotFound
  | some poll =>
    match findOption db poll.poll_id option_index with
    | none => .error .invalidOption
    | some opt =>
      if !poll.is_active then .error .pollClosed
      else if poll.is_expired ctx.now then .error .pollExpired
      else
        match checkVisibility poll ctx user with
        | .error e => .error e
        | .ok _ =>
          match checkCountry poll ctx ip_address with
          | .error e => .error e
          | .ok _ =>
            match checkDuplicate db poll user ip_address with
            | .error e => .error e
            | .ok _ => .ok (poll, opt)

/-- `polls/serializers.py` `VoteSerializer.create`: `Vote.objects.create`
inserts one row with the validated poll, option, IP address and the
(possibly null) user.  The table has no uniqueness constraint, so the
insert always succeeds and simply appends the row. -/
def create (db : DB) (poll : Poll) (opt : PollOption) (user : Option Nat)
    (ip_address : String) : DB × Vote :=
  let v : Vote :=
    { id := db.nextVoteId
      poll_id := poll.poll_id
      option_id := opt.id
      user := user
      ip_address := some ip_address }
  ({ db with votes := db.votes ++ [v], nextVoteId := db.nextVoteId + 1 }, v)

end VoteSerializer

/-- `polls/signals.py` `handle_new_vote` (post-save receiver on `Vote`,
`created=True` path): atomically increment the matching option's counter
(`PollOption.objects.filter(id=...).update(vote_count=F("vote_count")+1)`,
a store-side add touching exactly the rows with that primary key), then
re-read all options of the vote's poll and `group_send` a
`{"type": "poll_update", "results": [{"id": index, "vote_count": n}, ...]}`
payload to the group `poll_<poll_id>`.  It never touches the Redis
`dirty_polls` set.  Returns the updated table state and the emitted group
message. -/
def handle_new_vote (db : DB) (v : Vote) : DB × List GroupMessage :=
  let options1 := db.options.map (fun o =>
    if o.id == v.option_id then { o with vote_count := o.vote_count + 1 } else o)
  let db1 := { db with options := options1 }
  let formatted_data :=
    (db1.options.filter (fun o => o.poll_id == v.poll_id)).map
      (fun o => (o.index, o.vote_count))
  (db1, [(v.poll_id, { mtype := "poll_update", results := formatted_data })])

/-- Outcome of `PollViewSet.vote`: HTTP 201, HTTP 400 with the validation
error, or HTTP 404 from `get_object`. -/
inductive VoteResponse where
  | created
  | badRequest (e : VoteError)
  | notFound
  deriving DecidableEq, Repr

/-- `polls/views.py` `PollViewSet.vote`: resolve the poll from the URL
(404 when absent), run `VoteSerializer.validate` with the request's
identity, re-check that the validated option belongs to the URL poll, and
only then persist: `serializer.save()` runs `VoteSerializer.create`,
whose `Vote.objects.create` fires the `post_save` signal
`handle_new_vote`.  Every rejection path returns before any write. -/
def PollViewSet.vote (ctx : ValidCtx) (user : Option Nat) (ip_address : String)
    (poll_id : Nat) (option_index : Nat) (s : SysState) :
    SysState × VoteResponse × List GroupMessage :=
  match findPoll s.db poll_id with
  | none => (s, .notFound, [])
  | some urlPoll =>
    match VoteSerializer.validate s.db ctx user ip_address urlPoll.poll_id option_index with
    | .error e => (s, .badRequest e, [])
    | .ok (poll, opt) =>
      if opt.poll_id ≠ urlPoll.poll_id then (s, .badRequest .invalidOption, [])
      else
        let (db1, v) := VoteSerializer.create s.db poll opt user ip_address
        let (db2, msgs) := handle_new_vote db1 v
        ({ s with db := db2 }, .created, msgs)

/-- `polls/consumers.py` `PollConsumer.poll_update`: the group-message
handler forwards `{"type": "poll_update", "results": event["results"]}`
to the socket. -/
def PollConsumer.poll_update (event : Message) : Message :=
  { mtype := "poll_update", results := event.results }

/-- `core/tasks.py` `broadcast_poll_updates`: if the `dirty_polls` key
does not exist, return; otherwise atomically `RENAME` it to
`dirty_polls_processing` (any failure of the rename is swallowed and the
tick returns — `renameOk = false` models that exception), read the
members of the processing key, `group_send` each dirty poll a
`{"type": "poll_update", "results": values("id", "vote_count")}` payload
(the raw `id` primary key, not the ordinal `index`), and finally delete
the processing key. -/
def broadcast_poll_updates (db : DB) (r : RedisState) (renameOk : Bool) :
    RedisState × List GroupMessage :=
  if r.dirty_polls = [] then (r, [])
  else if !renameOk then (r, [])
  else
    let r1 : RedisState := { dirty_polls := [], dirty_polls_processing := r.dirty_polls }
    let msgs := r1.dirty_polls_processing.map (fun poll_id =>
      (poll_id,
        { mtype := "poll_update"
          results := (db.options.filter (fun o => o.poll_id == poll_id)).map
            (fun o => (o.id, o.vote_count)) }))
    ({ dirty_polls := [], dirty_polls_processing := [] }, msgs)

/-- One vote-submission request: identity (optional user id), client IP,
URL poll id and body option ordinal. -/
structure VoteRequest where
  user : Option Nat
  ip_address : String
  poll_id : Nat
  option_index : Nat
  deriving DecidableEq, Repr

/-- Process a sequence of vote submissions through `PollViewSet.vote`,
threading the system state. -/
def run_requests (ctx : ValidCtx) (s : SysState) : List VoteRequest → SysState
  | [] => s
  | q :: rest =>
    run_requests ctx (PollViewSet.vote ctx q.user q.ip_address q.poll_id q.option_index s).1 rest

/-- Conservation invariant: every option's stored `vote_count` equals the
number of `Vote` rows whose `option_id` references it. -/
def counts_consistent (db : DB) : Prop :=
  ∀ o ∈ db.options, o.vote_count = (db.votes.filter (fun v => v.option_id == o.id)).length

instance (db : DB) : Decidable (counts_consistent db) := by
  unfold counts_consistent
  infer_instance

/-! ### Concrete fixtures

Small concrete states used to evaluate the pipeline at specific inputs:
one open public poll with two options (storage keys 10 and 11, ordinals
1 and 2), a member-of-org-1 check, and a GeoIP table resolving only
`9.9.9.9` (to `US`). -/

/-- Fixture context: current time 100, user 2 is the sole member of
organization 1, and only the IP `9.9.9.9` resolves (to `US`). -/
def ctx0 : ValidCtx :=
  { now := 100
    isMember := fun org u => org == 1 && u == 2
    resolve := fun ip => if ip = "9.9.9.9" then some "US" else none }

/-- Fixture: an open public poll (id 1) ending at time 200. -/
def poll1 : Poll :=
  { poll_id := 1, organization := none, end_date := 200, is_active := true,
    manually_closed := false, is_public := true, allowed_country := "" }

/-- Fixture: poll 1 with options (pk 10, ordinal 1) and (pk 11, ordinal 2),
both at zero votes, no votes yet. -/
def db0 : DB :=
  { polls := [poll1]
    options := [⟨10, 1, 1, 0⟩, ⟨11, 1, 2, 0⟩]
    votes := []
    nextVoteId := 0 }

/-- Fixture: fresh system state, empty Redis. -/
def s0 : SysState := { db := db0, redis := ⟨[], []⟩ }

/-- Fixture: poll 2 with a stale `is_active` flag — `end_date` 50 is in
the past (now = 100) but `is_active` is still `true`. -/
def poll2 : Poll := { poll1 with poll_id := 2, end_date := 50 }

/-- Fixture database holding the stale-flag poll 2. -/
def db2f : DB :=
  { polls := [poll2], options := [⟨20, 2, 1, 0⟩], votes := [], nextVoteId := 0 }

/-- Fixture: poll 3 restricted to country `US`. -/
def poll3 : Poll := { poll1 with poll_id := 3, allowed_country := "US" }

/-- Fixture database holding the country-restricted poll 3. -/
def db3f : DB :=
  { polls := [poll3], options := [⟨30, 3, 1, 0⟩], votes := [], nextVoteId := 0 }

/-- Fixture: `db0` after user 7 has already voted for option pk 10 on
poll 1 (one ledger row for the pair `(poll 1, user 7)`). -/
def c2db : DB :=
  { db0 with votes := [⟨0, 1, 10, some 7, some "1.2.3.4"⟩], nextVoteId := 1 }

/-- Fixture: `db0` with option pk 10 at 5 votes, so that the storage key
(10) and the ordinal (1) of the same option are visibly different. -/
def c4db : DB :=
  { db0 with options := [⟨10, 1, 1, 5⟩, ⟨11, 1, 2, 0⟩] }

/-! ### Helper lemmas -/

/-- Inserting one `Vote` row and then running the post-save signal (which
increments exactly the options whose pk equals the new row's `option_id`)
preserves the conservation invariant. -/
theorem counts_consistent_insert_and_increment (db : DB) (v : Vote) (n : Nat)
    (h : counts_consistent db) :
    counts_consistent
      (handle_new_vote { db with votes := db.votes ++ [v], nextVoteId := n } v).1 := by
  intro o1 h1
  simp only [handle_new_vote, List.mem_map] at h1
  obtain ⟨o, ho, rfl⟩ := h1
  have hcount := h o ho
  by_cases hid : o.id = v.option_id
  · simp only [handle_new_vote, hid, beq_self_eq_true, if_true, List.filter_append,
      List.length_append, List.filter_cons, List.filter_nil]
    simp [hid, hcount]
  · have hid' : (o.id == v.option_id) = false := by
      simpa using hid
    simp only [handle_new_vote, hid', Bool.false_eq_true, if_false, List.filter_append,
      List.length_append, List.filter_cons, List.filter_nil]
    have hvo : (v.option_id == o.id) = false := by
      simp [Ne.symm hid]
    simp [hvo, hcount]

/-- A single request through `PollViewSet.vote` preserves the conservation
invariant, whether it is accepted or rejected. -/
theorem vote_preserves_counts (ctx : ValidCtx) (user : Option Nat) (ip_address : String)
    (poll_id : Nat) (option_index : Nat) (s : SysState)
    (h : counts_consistent s.db) :
    counts_consistent (PollViewSet.vote ctx user ip_address poll_id option_index s).1.db := by
  unfold PollViewSet.vote
  split
  · exact h
  · split
    · exact h
    · split
      · exact h
      · simp only [VoteSerializer.create]
        exact counts_consistent_insert_and_increment s.db _ _ h

/-! ### Claim theorems -/

/-- C1: starting from any state in which every option's stored
`vote_count` equals the number of `Vote` rows referencing it, processing
any sequence of vote submissions through `PollViewSet.vote` preserves
that equality: each accepted vote appends exactly one `Vote` row
(`VoteSerializer.create`) and the post-save signal `handle_new_vote`
performs exactly one increment of that option's counter; rejected
submissions change nothing, and no other code path touches the
counter. -/
theorem C1_vote_count_conservation (ctx : ValidCtx) (s : SysState)
    (reqs : List VoteRequest) (h : counts_consistent s.db) :
    counts_consistent (run_requests ctx s reqs).db := by
  induction reqs generalizing s with
  | nil => exact h
  | cons q rest ih =>
    rw [run_requests]
    exact ih _ (vote_preserves_counts ctx q.user q.ip_address q.poll_id q.option_index s h)

/-- C1 witness: two accepted votes (one authenticated, one anonymous) on
the fixture poll leave every option's counter equal to its number of
ledger rows. -/
theorem C1_witness :
    counts_consistent
      (run_requests ctx0 s0 [⟨some 7, "1.2.3.4", 1, 1⟩, ⟨none, "8.8.8.8", 1, 2⟩]).db :=
  C1_vote_count_conservation ctx0 s0 [⟨some 7, "1.2.3.4", 1, 1⟩, ⟨none, "8.8.8.8", 1, 2⟩]
    (by decide)

/-- C2 counterexample: the `Vote` table's Meta declares only (non-unique)
indexes on `(poll, user)` and `(poll, ip_address)`, so the store-level
insert of `VoteSerializer.create` cannot fail.  Concretely: `c2db`
already holds a Vote for `(poll 1, user 7)`, yet inserting a second Vote
for the same pair succeeds and leaves two Vote rows for that pair —
refuting the claim that the second insert fails at the store. -/
theorem C2_counterexample :
    ((VoteSerializer.create c2db poll1 ⟨10, 1, 1, 1⟩ (some 7) "1.2.3.4").1.votes.filter
        (fun v => v.poll_id == 1 && v.user == some 7)).length = 2 := by
  decide

/-- C2 amended: the `Vote` store enforces no uniqueness constraint — the
Meta class declares only non-unique indexes — so an insert always appends
one row and never fails; in particular, whenever a Vote already exists
for `(poll, user)`, a second insert for the same pair leaves at least two
Vote rows for that pair.  Duplicate prevention therefore rests entirely
on the validator's read-based pre-check, and no store-level
uniqueness-violation error exists to be mapped to the "already voted"
validation error. -/
theorem C2_store_enforces_no_uniqueness (db : DB) (poll : Poll) (opt : PollOption)
    (u : Nat) (ip_address : String) (h : hasUserVote db poll.poll_id u = true) :
    (VoteSerializer.create db poll opt (some u) ip_address).1.votes =
      db.votes ++ [⟨db.nextVoteId, poll.poll_id, opt.id, some u, some ip_address⟩] ∧
    2 ≤ ((VoteSerializer.create db poll opt (some u) ip_address).1.votes.filter
        (fun v => v.poll_id == poll.poll_id && v.user == some u)).length := by
  constructor
  · rfl
  · simp only [VoteSerializer.create, List.filter_append, List.length_append,
      List.filter_cons, List.filter_nil]
    rw [hasUserVote, List.any_eq_true] at h
    obtain ⟨v, hv, hpred⟩ := h
    have hmem : v ∈ db.votes.filter (fun v => v.poll_id == poll.poll_id && v.user == some u) :=
      List.mem_filter.mpr ⟨hv, hpred⟩
    have h1 : 0 < (db.votes.filter
        (fun v => v.poll_id == poll.poll_id && v.user == some u)).length :=
      List.length_pos_of_mem hmem
    simp
    omega

/-- C2 amended witness: inserting a second vote for `(poll 1, user 7)`
into `c2db` appends the row and yields two ledger rows for the pair. -/
theorem C2_store_enforces_no_uniqueness_witness :
    (VoteSerializer.create c2db poll1 ⟨10, 1, 1, 1⟩ (some 7) "5.5.5.5").1.votes =
      c2db.votes ++ [⟨1, 1, 10, some 7, some "5.5.5.5"⟩] ∧
    2 ≤ ((VoteSerializer.create c2db poll1 ⟨10, 1, 1, 1⟩ (some 7) "5.5.5.5").1.votes.filter
        (fun v => v.poll_id == 1 && v.user == some 7)).length :=
  C2_store_enforces_no_uniqueness c2db poll1 ⟨10, 1, 1, 1⟩ 7 "5.5.5.5" (by decide)

/-- C3: evaluation of the code at an accepted vote.  User 7's vote on
poll 1 is accepted (`created`) and `handle_new_vote` broadcasts the
updated counts synchronously to the group, but the Redis `dirty_polls`
set — empty before the vote — is still empty afterwards: no code path in
the vote-acceptance pipeline ever adds the poll id to the dirty set,
contradicting both the claim and the comment in
`core/tasks.py` ("while new votes start filling a fresh 'dirty_polls'
set"). -/
theorem C3_accepted_vote_never_marks_dirty :
    (PollViewSet.vote ctx0 (some 7) "1.2.3.4" 1 1 s0).2.1 = .created ∧
    (PollViewSet.vote ctx0 (some 7) "1.2.3.4" 1 1 s0).2.2 =
      [(1, { mtype := "poll_update", results := [(1, 1), (2, 0)] })] ∧
    (PollViewSet.vote ctx0 (some 7) "1.2.3.4" 1 1 s0).1.redis.dirty_polls = [] ∧
    1 ∉ (PollViewSet.vote ctx0 (some 7) "1.2.3.4" 1 1 s0).1.redis.dirty_polls := by
  decide

/-- C4: evaluation of the code at the divergence point.  With the dirty
set `{poll 1}` and poll 1's first option stored under pk 10 / ordinal 1,
the periodic scheduler `broadcast_poll_updates` publishes
`{"type": "poll_update", "results": [{"id": 10, ...}, {"id": 11, ...}]}`
— the raw storage keys from `values("id", "vote_count")` — whereas the
signal-path broadcast for the very same data publishes the ordinals
`[{"id": 1, ...}, {"id": 2, ...}]`; 10 ≠ 1, so the scheduler's `id`
field is not the option's ordinal position, contradicting the claim for
the periodic-scheduler path. -/
theorem C4_scheduler_publishes_raw_storage_keys :
    (broadcast_poll_updates c4db ⟨[1], []⟩ true).2 =
      [(1, { mtype := "poll_update", results := [(10, 5), (11, 0)] })] ∧
    (handle_new_vote c4db ⟨1, 1, 10, some 7, some "1.2.3.4"⟩).2 =
      [(1, { mtype := "poll_update", results := [(1, 6), (2, 0)] })] ∧
    (c4db.options.map (fun o => o.index)) = [1, 2] ∧
    PollConsumer.poll_update { mtype := "poll_update", results := [(10, 5), (11, 0)] } =
      { mtype := "poll_update", results := [(10, 5), (11, 0)] } := by
  decide

/-- C5: for a submission that reaches the duplicate check (poll and
option found, poll open and unexpired, visibility and country checks
passing), an authenticated user is rejected as a duplicate exactly when
a Vote exists for `(poll, user)` and otherwise accepted — the IP address
plays no role, so an authenticated user whose IP matches an earlier
anonymous vote is still accepted; an anonymous voter is rejected as a
duplicate exactly when a Vote exists for `(poll, ip_address)` and
otherwise accepted. -/
theorem C5_duplicate_check_iff (db : DB) (ctx : ValidCtx) (user : Option Nat)
    (ip_address : String) (poll_id option_index : Nat) (poll : Poll) (opt : PollOption)
    (hp : findPoll db poll_id = some poll)
    (ho : findOption db poll.poll_id option_index = some opt)
    (ha : poll.is_active = true)
    (he : poll.is_expired ctx.now = false)
    (hv : checkVisibility poll ctx user = .ok ())
    (hc : checkCountry poll ctx ip_address = .ok ()) :
    (∀ u, user = some u →
      (VoteSerializer.validate db ctx user ip_address poll_id option_index =
          .error .alreadyVotedUser ↔ hasUserVote db poll.poll_id u = true) ∧
      (VoteSerializer.validate db ctx user ip_address poll_id option_index =
          .ok (poll, opt) ↔ hasUserVote db poll.poll_id u = false)) ∧
    (user = none →
      (VoteSerializer.validate db ctx user ip_address poll_id option_index =
          .error .alreadyVotedIp ↔ hasIpVote db poll.poll_id ip_address = true) ∧
      (VoteSerializer.validate db ctx user ip_address poll_id option_index =
          .ok (poll, opt) ↔ hasIpVote db poll.poll_id ip_address = false)) := by
  constructor
  · rintro u rfl
    by_cases hd : hasUserVote db poll.poll_id u
    · simp [VoteSerializer.validate, hp, ho, ha, he, hv, hc, checkDuplicate, hd]
    · simp [VoteSerializer.validate, hp, ho, ha, he, hv, hc, checkDuplicate, hd]
  · rintro rfl
    by_cases hd : hasIpVote db poll.poll_id ip_address
    · simp [VoteSerializer.validate, hp, ho, ha, he, hv, hc, checkDuplicate, hd]
    · simp [VoteSerializer.validate, hp, ho, ha, he, hv, hc, checkDuplicate, hd]

/-- C5 witness: user 7 already voted on poll 1 in `c2db`, so their second
submission is rejected as a duplicate; anonymous IP `1.2.3.4` — the very
IP of user 7's earlier vote — has not itself voted through the anonymous
path in `db0`, and a fresh authenticated user 8 sharing that IP in
`c2db` is accepted, showing IP is not consulted for authenticated
voters. -/
theorem C5_witness :
    (VoteSerializer.validate c2db ctx0 (some 7) "1.2.3.4" 1 1 =
      .error .alreadyVotedUser) ∧
    (VoteSerializer.validate c2db ctx0 (some 8) "1.2.3.4" 1 1 =
      .ok (poll1, ⟨10, 1, 1, 0⟩)) := by
  constructor
  · exact (((C5_duplicate_check_iff c2db ctx0 (some 7) "1.2.3.4" 1 1 poll1 ⟨10, 1, 1, 0⟩
      rfl rfl rfl rfl rfl rfl).1 7 rfl).1).mpr (by decide)
  · exact (((C5_duplicate_check_iff c2db ctx0 (some 8) "1.2.3.4" 1 1 poll1 ⟨10, 1, 1, 0⟩
      rfl rfl rfl rfl rfl rfl).1 8 rfl).2).mpr (by decide)

/-- C6: a submission against a poll whose `end_date` is in the past is
always rejected; the `is_active` flag and the end-time expiry are
independent checks, each raising its own error — an inactive poll is
rejected as closed, while a poll whose flag is still `true` (the
stale-flag case) is nonetheless rejected as expired. -/
theorem C6_expired_poll_rejected (db : DB) (ctx : ValidCtx) (user : Option Nat)
    (ip_address : String) (poll_id option_index : Nat) (poll : Poll) (opt : PollOption)
    (hp : findPoll db poll_id = some poll)
    (ho : findOption db poll.poll_id option_index = some opt)
    (hexp : ctx.now > poll.end_date) :
    (∃ e, VoteSerializer.validate db ctx user ip_address poll_id option_index = .error e) ∧
    (poll.is_active = false →
      VoteSerializer.validate db ctx user ip_address poll_id option_index =
        .error .pollClosed) ∧
    (poll.is_active = true →
      VoteSerializer.validate db ctx user ip_address poll_id option_index =
        .error .pollExpired) := by
  have hexpired : poll.is_expired ctx.now = true := by
    simp [Poll.is_expired, hexp]
  refine ⟨?_, ?_, ?_⟩
  · by_cases ha : poll.is_active
    · exact ⟨.pollExpired, by simp [VoteSerializer.validate, hp, ho, ha, hexpired]⟩
    · exact ⟨.pollClosed, by simp [VoteSerializer.validate, hp, ho,
        Bool.eq_false_iff.mpr ha]⟩
  · intro ha
    simp [VoteSerializer.validate, hp, ho, ha]
  · intro ha
    simp [VoteSerializer.validate, hp, ho, ha, hexpired]

/-- C6 witness: fixture poll 2 has `end_date = 50` in the past
(`now = 100`) while `is_active` is still `true`; the submission is
rejected as expired. -/
theorem C6_witness :
    VoteSerializer.validate db2f ctx0 (some 7) "1.2.3.4" 2 1 = .error .pollExpired :=
  (C6_expired_poll_rejected db2f ctx0 (some 7) "1.2.3.4" 2 1 poll2 ⟨20, 2, 1, 0⟩
    rfl rfl (by decide)).2.2 rfl

/-- C7: when the dirty set is non-empty, a broadcast tick drains exactly
the accumulated poll ids (one publish per dirty poll), leaves the working
`dirty_polls` key empty, and therefore a second tick with no intervening
mark lands in the key-does-not-exist branch: it publishes nothing and
changes nothing. -/
theorem C7_second_drain_is_noop (db db2 : DB) (r : RedisState)
    (h : r.dirty_polls ≠ []) :
    (broadcast_poll_updates db r true).2.map Prod.fst = r.dirty_polls ∧
    (broadcast_poll_updates db r true).2 ≠ [] ∧
    (broadcast_poll_updates db r true).1.dirty_polls = [] ∧
    broadcast_poll_updates db2 (broadcast_poll_updates db r true).1 true =
      ((broadcast_poll_updates db r true).1, []) := by
  refine ⟨?_, ?_, ?_, ?_⟩
  · simp [broadcast_poll_updates, h, Function.comp_def]
  · simp [broadcast_poll_updates, h]
  · simp [broadcast_poll_updates, h]
  · simp [broadcast_poll_updates, h]

/-- C7 witness: with dirty set `{1}`, the first tick over the fixture
database publishes one message for poll 1 and the second tick is a
no-op. -/
theorem C7_witness :
    (broadcast_poll_updates db0 ⟨[1], []⟩ true).2.map Prod.fst = [1] ∧
    (broadcast_poll_updates db0 ⟨[1], []⟩ true).2 ≠ [] ∧
    (broadcast_poll_updates db0 ⟨[1], []⟩ true).1.dirty_polls = [] ∧
    broadcast_poll_updates db0 (broadcast_poll_updates db0 ⟨[1], []⟩ true).1 true =
      ((broadcast_poll_updates db0 ⟨[1], []⟩ true).1, []) :=
  C7_second_drain_is_noop db0 db0 ⟨[1], []⟩ (by decide)

/-- C8: when the atomic rename step fails (the swallowed exception in
`core/tasks.py`, modelled by `renameOk = false`), the broadcast tick
returns normally, publishes nothing, and leaves the Redis state exactly
as it found it for the next cycle. -/
theorem C8_rename_failure_is_noop (db : DB) (r : RedisState) :
    broadcast_poll_updates db r false = (r, []) := by
  unfold broadcast_poll_updates
  split
  · rfl
  · rfl

/-- C9: against a poll with a country restriction, whenever the voter's
IP does not resolve to the poll's allowed country the submission can
never be accepted, and once it reaches the country check it is rejected
with the country-restriction error; the unresolved case
(`get_country_from_ip` returning `none`) always satisfies the mismatch
(the allowed country is a non-empty code), so an unresolvable IP is
treated as non-matching and rejected. -/
theorem C9_country_mismatch_rejected (db : DB) (ctx : ValidCtx) (user : Option Nat)
    (ip_address : String) (poll_id option_index : Nat) (poll : Poll)
    (hp : findPoll db poll_id = some poll)
    (hr : poll.allowed_country ≠ "")
    (hm : get_country_from_ip ctx.resolve ip_address ≠ some poll.allowed_country) :
    (∀ res, VoteSerializer.validate db ctx user ip_address poll_id option_index ≠ .ok res) ∧
    (∀ opt, findOption db poll.poll_id option_index = some opt →
      poll.is_active = true → poll.is_expired ctx.now = false →
      checkVisibility poll ctx user = .ok () →
      VoteSerializer.validate db ctx user ip_address poll_id option_index =
        .error .countryRestricted) := by
  have hcc : checkCountry poll ctx ip_address = .error .countryRestricted := by
    simp [checkCountry, hr, hm]
  constructor
  · intro res hok
    simp only [VoteSerializer.validate, hp] at hok
    rcases hfo : findOption db poll.poll_id option_index with _ | opt
    · simp only [hfo] at hok
      exact Except.noConfusion hok
    · simp only [hfo] at hok
      by_cases ha : poll.is_active
      · by_cases hex : poll.is_expired ctx.now
        · simp [ha, hex] at hok
        · rcases hvv : checkVisibility poll ctx user with e | u
          · simp [ha, hex, hvv] at hok
          · simp [ha, hex, hvv, hcc] at hok
      · simp [ha] at hok
  · intro opt hfo ha hex hvv
    simp [VoteSerializer.validate, hp, hfo, ha, hex, hvv, hcc]

/-- C9 witness: poll 3 is restricted to `US`; the fixture resolver cannot
resolve `1.2.3.4` (it returns `none`), and the submission is rejected
with the country-restriction error, and can never be accepted. -/
theorem C9_witness :
    (∀ res, VoteSerializer.validate db3f ctx0 (some 7) "1.2.3.4" 3 1 ≠ .ok res) ∧
    VoteSerializer.validate db3f ctx0 (some 7) "1.2.3.4" 3 1 =
      .error .countryRestricted := by
  have h := C9_country_mismatch_rejected db3f ctx0 (some 7) "1.2.3.4" 3 1 poll3
    rfl (by decide) (by decide)
  exact ⟨h.1, h.2 ⟨30, 3, 1, 0⟩ rfl rfl rfl rfl⟩

/-- C10: every rejected submission — 404 from the poll lookup or 400 from
any validation failure (closed, expired, not logged in, non-member,
country mismatch or unresolvable IP, duplicate, option not in the poll)
— returns before any write: the system state is returned unchanged, so
no Vote row is created and no option's `vote_count` is modified. -/
theorem C10_rejection_leaves_store_unchanged (ctx : ValidCtx) (user : Option Nat)
    (ip_address : String) (poll_id option_index : Nat) (s : SysState)
    (h : (PollViewSet.vote ctx user ip_address poll_id option_index s).2.1 ≠ .created) :
    (PollViewSet.vote ctx user ip_address poll_id option_index s).1 = s ∧
    (PollViewSet.vote ctx user ip_address poll_id option_index s).1.db.votes = s.db.votes ∧
    (PollViewSet.vote ctx user ip_address poll_id option_index s).1.db.options =
      s.db.options := by
  suffices hs : (PollViewSet.vote ctx user ip_address poll_id option_index s).1 = s by
    exact ⟨hs, by rw [hs], by rw [hs]⟩
  unfold PollViewSet.vote at h ⊢
  rcases hfp : findPoll s.db poll_id with _ | urlPoll
  · simp only [hfp]
  · simp only [hfp] at h ⊢
    rcases hval : VoteSerializer.validate s.db ctx user ip_address urlPoll.poll_id
        option_index with e | po
    · simp only [hval]
    · obtain ⟨poll, opt⟩ := po
      simp only [hval] at h ⊢
      by_cases hmm : opt.poll_id ≠ urlPoll.poll_id
      · rw [if_pos hmm]
      · exfalso
        apply h
        rw [if_neg hmm]

/-- C10 witness: user 7's duplicate submission on poll 1 (state `c2db`)
is rejected and the state — votes and counters included — is returned
unchanged. -/
theorem C10_witness :
    (PollViewSet.vote ctx0 (some 7) "1.2.3.4" 1 1 ⟨c2db, ⟨[], []⟩⟩).1 = ⟨c2db, ⟨[], []⟩⟩ ∧
    (PollViewSet.vote ctx0 (some 7) "1.2.3.4" 1 1 ⟨c2db, ⟨[], []⟩⟩).1.db.votes = c2db.votes ∧
    (PollViewSet.vote ctx0 (some 7) "1.2.3.4" 1 1 ⟨c2db, ⟨[], []⟩⟩).1.db.options =
      c2db.options :=
  C10_rejection_leaves_store_unchanged ctx0 (some 7) "1.2.3.4" 1 1 ⟨c2db, ⟨[], []⟩⟩
    (by decide)

end Polls
